import Mathlib

/-!
Shallow embedding of the Notion MCP server
(repository Mingxiao300/Notion-MCP-Server-Smithery).

Two namespaces:

* `NotionDirect` embeds `src/index.ts`: the hand-written MCP server with a
  fixed tool list (search_notion, get_page_content, create_page,
  update_page), an axios client carrying fixed headers, and a single
  try/catch around the tool dispatch switch.

* `NotionProxy` embeds the OpenAPI-proxy variant (`src/unnamed/part_000`):
  its zod `configSchema` with the credential `.refine`, and `createServer`
  delegating to `initProxy` from `init-server.js` (that file is not in the
  repository snapshot; it is modelled from the spec where noted).

JavaScript semantics are modelled explicitly: a missing object key reads
as `undefined` (`Option.none` here), template-literal interpolation of
`undefined` yields the string "undefined", and truthiness of a string
value is "present and non-empty".
-/

/-- JavaScript truthiness of a possibly-undefined string value:
`undefined`, and the empty string, are falsy. -/
def jsTruthy : Option String → Bool
  | none => false
  | some s => s ≠ ""

/-- JavaScript `a || b` for a possibly-undefined string `a` with string
fallback `b`: returns `b` when `a` is `undefined` or empty. -/
def jsOr : Option String → String → String
  | none, b => b
  | some s, b => if s = "" then b else s

/-- Template-literal interpolation of a possibly-undefined string:
JavaScript renders `undefined` as the text "undefined". -/
def interpUndef : Option String → String
  | none => "undefined"
  | some s => s

namespace NotionDirect

/-- The parsed configuration of `src/index.ts` (`configSchema`):
`notionToken` is a required string, `baseUrl` defaults to the Notion
origin. -/
structure MainConfig where
  notionToken : String
  baseUrl : String
deriving DecidableEq

/-- JSON values as sent in request bodies; `undef` stands for a field
whose value is JavaScript `undefined` (a missing argument). -/
inductive Json where
  | str (s : String)
  | num (n : Int)
  | obj (fields : List (String × Json))
  | arr (elems : List Json)
  | undef

/-- An outbound HTTP request as assembled by the axios client: method,
full URL (`baseURL` + path), the client headers, and an optional JSON
body. -/
structure HttpRequest where
  method : String
  url : String
  headers : List (String × String)
  body : Option Json

/-- One entry of `search` response `results`; fields the handler reads
(`object`, `title`, `id`), each possibly absent. -/
structure SearchResult where
  object : Option String
  title : Option String
  id : Option String
deriving DecidableEq

/-- The fields of a page object that the handler reads; `titleContent`
stands for the optional chain
`properties?.title?.title?.[0]?.text?.content`. -/
structure PageData where
  id : Option String
  created_time : Option String
  last_edited_time : Option String
  titleContent : Option String
deriving DecidableEq

/-- A block object as read by `extractTextFromBlocks`. `btype` is the
`type` field; `richText` stands for the `rich_text` array (as its list of
`plain_text` strings) found under the property named by the type, when
present. -/
structure Block where
  btype : Option String
  richText : Option (List String)
  checked : Bool
  codeLanguage : Option String
  has_children : Bool
  id : Option String
deriving DecidableEq

/-- The well-shaped response payloads of the Notion endpoints the handler
calls. A variant mismatch at a call site models a response body lacking
the structure the handler reads. -/
inductive RespData where
  | searchData (results : List SearchResult)
  | pageData (p : PageData)
  | blocksData (results : List Block)
  | createData (id : Option String)
  | emptyData
deriving DecidableEq

/-- Outcome of one HTTP exchange, supplied by the environment: a
network-level failure with no response, an HTTP error response (axios
throws, `error.response.data.message` is `dataMessage`), or a 2xx
success with a payload. -/
inductive HttpOutcome where
  | transportError (message : String)
  | httpError (status : Nat) (dataMessage : Option String)
  | success (data : RespData)

/-- The environment: what each issued HTTP request comes back with. -/
def Oracle : Type := HttpRequest → HttpOutcome

/-- A thrown JavaScript error as observed by the catch block, which reads
`error.response?.data?.message` and `error.message`. -/
structure JsError where
  responseDataMessage : Option String
  message : String
deriving DecidableEq

/-- One content block of an MCP tool result. -/
structure ContentBlock where
  type : String
  text : String
deriving DecidableEq

/-- An MCP tool result: content blocks plus the error flag (absent in the
success returns of the source, which reads as `false`). -/
structure ToolResult where
  content : List ContentBlock
  isError : Bool
deriving DecidableEq

/-- The headers the axios client is created with (`axios.create` in the
CallTool handler): bearer authorization from the configured token plus
the fixed Notion-Version and Content-Type headers. -/
def notionHeaders (cfg : MainConfig) : List (String × String) :=
  [("Authorization", "Bearer " ++ cfg.notionToken),
   ("Notion-Version", "2022-06-28"),
   ("Content-Type", "application/json")]

/-- Build a request through the axios client: URL is `baseURL ++ path`,
headers are exactly the client headers. -/
def mkReq (cfg : MainConfig) (method path : String) (body : Option Json) : HttpRequest :=
  { method := method, url := cfg.baseUrl ++ path, headers := notionHeaders cfg, body := body }

/-- Await an HTTP exchange: axios resolves a 2xx with its data and throws
otherwise (for an HTTP error response, `error.message` is the axios
status text and `error.response.data.message` the upstream message; for
a transport failure there is no response). -/
def awaitReq (o : Oracle) (r : HttpRequest) : Except JsError RespData :=
  match o r with
  | .transportError m => .error { responseDataMessage := none, message := m }
  | .httpError st dm =>
      .error { responseDataMessage := dm,
               message := "Request failed with status code " ++ toString st }
  | .success d => .ok d

/-- The thrown TypeError when the handler reads a property of an
`undefined` intermediate (engine message abstracted to "TypeError"). -/
def typeError : JsError := { responseDataMessage := none, message := "TypeError" }

/-- The catch block at the end of the CallTool handler: every thrown
error becomes a result with the error flag set and text built from
`error.response?.data?.message || error.message`. -/
def errorResult (e : JsError) : ToolResult :=
  { content := [{ type := "text", text := "❌ Error: " ++ jsOr e.responseDataMessage e.message }],
    isError := true }

/-- A successful (non-error) tool result with a single text block. -/
def okResult (t : String) : ToolResult :=
  { content := [{ type := "text", text := t }], isError := false }

/-- The tool-call argument object; each field reads as `undefined` when
the caller did not supply it. These are the only keys the handler
reads. -/
structure Args where
  query : Option String := none
  page_id : Option String := none
  title : Option String := none
  parent_id : Option String := none
  content : Option String := none
deriving DecidableEq

/-- JSON value of a possibly-missing argument placed in a request body. -/
def optJson : Option String → Json
  | none => .undef
  | some s => .str s

/-- Body of the `search_notion` POST: `{ query: args.query, page_size: 10 }`. -/
def searchBody (args : Args) : Json :=
  .obj [("query", optJson args.query), ("page_size", .num 10)]

/-- Body of the `create_page` POST. -/
def createBody (args : Args) : Json :=
  .obj [("parent", .obj [("page_id", optJson args.parent_id)]),
        ("properties", .obj [("title",
          .arr [.obj [("text", .obj [("content", optJson args.title)])]])])]

/-- Body of the `update_page` PATCH (`updateData`): starts empty and
gains a `properties.title` field only when `args.title` is truthy. The
`content` argument is never read. -/
def updateData (args : Args) : Json :=
  if jsTruthy args.title then
    .obj [("properties", .obj [("title",
      .arr [.obj [("text", .obj [("content", optJson args.title)])]])])]
  else .obj []

/-- The `POST /v1/search` request of `search_notion`. -/
def searchReq (cfg : MainConfig) (args : Args) : HttpRequest :=
  mkReq cfg "POST" "/v1/search" (some (searchBody args))

/-- The first request of `get_page_content`: `GET /v1/pages/\x7bpage_id\x7d`. -/
def pageReq (cfg : MainConfig) (args : Args) : HttpRequest :=
  mkReq cfg "GET" ("/v1/pages/" ++ interpUndef args.page_id) none

/-- The second request of `get_page_content`: the page's child blocks. -/
def pageBlocksReq (cfg : MainConfig) (args : Args) : HttpRequest :=
  mkReq cfg "GET" ("/v1/blocks/" ++ interpUndef args.page_id ++ "/children") none

/-- The children request issued inside `extractTextFromBlocks` for a
block with `has_children`. -/
def childBlocksReq (cfg : MainConfig) (blockId : Option String) : HttpRequest :=
  mkReq cfg "GET" ("/v1/blocks/" ++ interpUndef blockId ++ "/children") none

/-- The `POST /v1/pages` request of `create_page`. -/
def createReq (cfg : MainConfig) (args : Args) : HttpRequest :=
  mkReq cfg "POST" "/v1/pages" (some (createBody args))

/-- The `PATCH /v1/pages/\x7bpage_id\x7d` request of `update_page`. -/
def updateReq (cfg : MainConfig) (args : Args) : HttpRequest :=
  mkReq cfg "PATCH" ("/v1/pages/" ++ interpUndef args.page_id) (some (updateData args))

/-- Projection of a response expected to be search data; a mismatch means
`data.results` is `undefined`. -/
def asResults : RespData → Option (List SearchResult)
  | .searchData rs => some rs
  | _ => none

/-- `pageResponse.data` read as a page object: every field access on a
non-page payload yields `undefined`. -/
def pageOf : RespData → PageData
  | .pageData p => p
  | _ => { id := none, created_time := none, last_edited_time := none, titleContent := none }

/-- Projection of a response expected to be a block list; a mismatch
means `data.results` is `undefined` (iterating it throws). -/
def asBlocks : RespData → Option (List Block)
  | .blocksData bs => some bs
  | _ => none

/-- `createResponse.data.id`: `undefined` on a payload without that
field. -/
def createdId : RespData → Option String
  | .createData i => i
  | _ => none

/-- Rendering of one block by `extractTextFromBlocks`: each branch fires
only when the block's type matches and its `rich_text` is present. -/
def blockText (b : Block) : String :=
  match b.richText with
  | none => ""
  | some rt =>
    let t := String.join rt
    match b.btype with
    | some "paragraph" => t ++ "\n"
    | some "heading_1" => "# " ++ t ++ "\n"
    | some "heading_2" => "## " ++ t ++ "\n"
    | some "heading_3" => "### " ++ t ++ "\n"
    | some "bulleted_list_item" => "• " ++ t ++ "\n"
    | some "numbered_list_item" => "1. " ++ t ++ "\n"
    | some "to_do" => (if b.checked then "✅" else "☐") ++ " " ++ t ++ "\n"
    | some "quote" => "> " ++ t ++ "\n"
    | some "code" => "```" ++ (b.codeLanguage.getD "") ++ "\n" ++ t ++ "\n```\n"
    | _ => ""

/-- `extractTextFromBlocks`: walks the block list, renders each block,
and for a block with `has_children` fetches its children and recurses;
any failure of that inner fetch (or an unreadable payload) is caught by
the inner try/catch and skipped. Returns the accumulated text together
with the requests issued, in order. `fuel` bounds the nesting depth the
model follows (the source recursion is unbounded); the child request
itself is issued before any recursion, so it is included even at
exhausted fuel. -/
def extractTextFromBlocks (cfg : MainConfig) (o : Oracle) :
    Nat → List Block → String × List HttpRequest
  | _, [] => ("", [])
  | fuel, b :: rest =>
    let child : String × List HttpRequest :=
      if b.has_children then
        match awaitReq o (childBlocksReq cfg b.id) with
        | .error _ => ("", [childBlocksReq cfg b.id])
        | .ok d =>
          match asBlocks d with
          | none => ("", [childBlocksReq cfg b.id])
          | some children =>
            match fuel with
            | 0 => ("", [childBlocksReq cfg b.id])
            | fuel' + 1 =>
              let c := extractTextFromBlocks cfg o fuel' children
              (c.fst, childBlocksReq cfg b.id :: c.snd)
      else ("", [])
    let r := extractTextFromBlocks cfg o fuel rest
    (blockText b ++ child.fst ++ r.fst, child.snd ++ r.snd)
termination_by fuel bs => (fuel, bs)

/-- `generateSummary` word count: split on whitespace, keep non-empty
words. -/
def wordCount (content : String) : Nat :=
  ((content.split fun c => c.isWhitespace).filter fun w => w.length > 0).length

/-- `generateSummary` line selection: split on newline, keep lines whose
trim is non-empty. -/
def summaryLines (content : String) : List String :=
  (content.split fun c => c = '\n').filter fun l => l.trim ≠ ""

/-- Truncation of one listed line to 100 characters with an ellipsis. -/
def truncLine (line : String) : String :=
  line.take 100 ++ (if line.length > 100 then "..." else "")

/-- `generateSummary` from the `get_page_content` branch. -/
def generateSummary (content : String) : String :=
  if content.trim = "" then
    "This page appears to be empty or contains only structural elements."
  else
    let lines := summaryLines content
    let base := "**Content Summary:**\n"
      ++ "• **Word count:** " ++ toString (wordCount content) ++ " words\n"
      ++ "• **Line count:** " ++ toString lines.length ++ " lines\n"
    if lines.length > 0 then
      base ++ "• **First few lines:**\n"
        ++ String.join ((lines.take 3).map fun l => "  - " ++ truncLine l ++ "\n")
    else base

/-- `new Date(x).toLocaleDateString()` abstracted: locale-dependent date
rendering is modelled as the raw timestamp text. -/
def localeDate (s : Option String) : String := interpUndef s

/-- The text of one search result line. -/
def searchResultLine (r : SearchResult) : String :=
  "- " ++ (if r.object = some "page" then "📄" else "🗃️") ++ " "
    ++ jsOr r.title "Untitled" ++ " (" ++ interpUndef r.id ++ ")"

/-- The success text of `search_notion`. -/
def searchText (args : Args) (results : List SearchResult) : String :=
  "Found " ++ toString results.length ++ " results for \"" ++ interpUndef args.query
    ++ "\":\n\n" ++ String.intercalate "\n" (results.map searchResultLine)

/-- The success text of `get_page_content`. -/
def pageText (page : PageData) (pageContent : String) : String :=
  "# " ++ jsOr page.titleContent "Untitled" ++ "\n\n"
    ++ "**Page Details:**\n"
    ++ "• **ID:** " ++ interpUndef page.id ++ "\n"
    ++ "• **Created:** " ++ localeDate page.created_time ++ "\n"
    ++ "• **Last edited:** " ++ localeDate page.last_edited_time ++ "\n\n"
    ++ "---\n\n"
    ++ "**Page Content:**\n\n"
    ++ (if pageContent = "" then "*No content found*" else pageContent) ++ "\n\n"
    ++ "---\n\n"
    ++ generateSummary pageContent

/-- The CallTool request handler of `src/index.ts`: a switch on the tool
name inside one try/catch. Returns the tool result together with the
list of HTTP requests issued, in order. Every thrown error (axios
failures, unreadable payloads, the unknown-tool throw) lands in the
catch and becomes an `errorResult`; no exception escapes. -/
def callToolHandler (cfg : MainConfig) (o : Oracle) (fuel : Nat)
    (name : String) (args : Args) : ToolResult × List HttpRequest :=
  match name with
  | "search_notion" =>
    let req := searchReq cfg args
    let res :=
      match awaitReq o req with
      | .error e => errorResult e
      | .ok d =>
        match asResults d with
        | none => errorResult typeError
        | some results => okResult (searchText args results)
    (res, [req])
  | "get_page_content" =>
    let req1 := pageReq cfg args
    (match awaitReq o req1 with
     | .error e => (errorResult e, [req1])
     | .ok d1 =>
       let page := pageOf d1
       let req2 := pageBlocksReq cfg args
       match awaitReq o req2 with
       | .error e => (errorResult e, [req1, req2])
       | .ok d2 =>
         match asBlocks d2 with
         | none => (errorResult typeError, [req1, req2])
         | some blocks =>
           let c := extractTextFromBlocks cfg o fuel blocks
           (okResult (pageText page c.fst), req1 :: req2 :: c.snd))
  | "create_page" =>
    let req := createReq cfg args
    let res :=
      match awaitReq o req with
      | .error e => errorResult e
      | .ok d =>
        okResult ("✅ Successfully created page \"" ++ interpUndef args.title
          ++ "\" with ID: " ++ interpUndef (createdId d))
    (res, [req])
  | "update_page" =>
    let req := updateReq cfg args
    let res :=
      match awaitReq o req with
      | .error e => errorResult e
      | .ok _ => okResult ("✅ Successfully updated page " ++ interpUndef args.page_id)
    (res, [req])
  | n => (errorResult { responseDataMessage := none, message := "Unknown tool: " ++ n }, [])

/-- A parameter of a tool input schema: property name, JSON type,
description. -/
structure ParamSpec where
  name : String
  type : String
  description : String
deriving DecidableEq

/-- A tool input schema (always `type: object` in the source). -/
structure InputSchema where
  properties : List ParamSpec
  required : List String
deriving DecidableEq

/-- A tool descriptor as returned by the ListTools handler. -/
structure ToolDescriptor where
  name : String
  description : String
  inputSchema : InputSchema
deriving DecidableEq

/-- The ListTools request handler of `src/index.ts`: the literal list of
four tool descriptors. -/
def listTools : List ToolDescriptor :=
  [{ name := "search_notion",
     description := "Search for pages and databases in your Notion workspace",
     inputSchema :=
       { properties := [{ name := "query", type := "string",
                          description := "Search query to find pages or databases" }],
         required := ["query"] } },
   { name := "get_page_content",
     description := "Get the content of a specific Notion page",
     inputSchema :=
       { properties := [{ name := "page_id", type := "string",
                          description := "The ID of the Notion page to retrieve" }],
         required := ["page_id"] } },
   { name := "create_page",
     description := "Create a new page in Notion",
     inputSchema :=
       { properties :=
           [{ name := "title", type := "string",
              description := "Title of the new page" },
            { name := "parent_id", type := "string",
              description := "ID of the parent page or database" },
            { name := "content", type := "string",
              description := "Initial content for the page (optional)" }],
         required := ["title", "parent_id"] } },
   { name := "update_page",
     description := "Update the content of an existing Notion page",
     inputSchema :=
       { properties :=
           [{ name := "page_id", type := "string",
              description := "ID of the page to update" },
            { name := "title", type := "string",
              description := "New title for the page (optional)" },
            { name := "content", type := "string",
              description := "New content to add to the page" }],
         required := ["page_id"] } }]

/-- Characteristic function of the CallTool switch cases: exactly the
names with a non-default dispatch branch. -/
def hasDispatchBranch (n : String) : Bool :=
  n == "search_notion" || n == "get_page_content" || n == "create_page" || n == "update_page"

/-- The initialized server: name/version plus the two registered request
handlers. -/
structure MainServer where
  serverName : String
  version : String
  listToolsHandler : List ToolDescriptor
  callTool : Oracle → Nat → String → Args → ToolResult × List HttpRequest

/-- The startup error message for a malformed token (inner quotes of the
source message elided). -/
def invalidTokenMessage (t : String) : String :=
  "Invalid Notion token format. Expected token starting with secret_ or ntn_, got: "
    ++ t.take 10 ++ "..."

/-- `createServer` of `src/index.ts`: validates the token format before
any request handler is registered — a token starting with neither
"secret_" nor "ntn_" throws, so no server (and no handler) is ever
produced for it. -/
def createServer (cfg : MainConfig) : Except String MainServer :=
  if !cfg.notionToken.startsWith "secret_" && !cfg.notionToken.startsWith "ntn_" then
    .error (invalidTokenMessage cfg.notionToken)
  else
    .ok { serverName := "Notion API", version := "1.9.0",
          listToolsHandler := listTools,
          callTool := fun o fuel n args => callToolHandler cfg o fuel n args }

end NotionDirect

namespace NotionProxy

/-- The raw configuration object of the proxy variant
(`src/unnamed/part_000`), before zod parsing: both credential fields are
optional strings; `baseUrl` is an optional URL string with a default. -/
structure RawConfig where
  notionToken : Option String
  openapiMcpHeaders : Option String
  baseUrl : Option String
deriving DecidableEq

/-- The `.refine` predicate of `configSchema` in the proxy variant, its
only credential validation: `data.notionToken || data.openapiMcpHeaders`
under JavaScript truthiness. Parsing reports the configuration error
"Either notionToken or openapiMcpHeaders must be provided" exactly when
this is false. -/
def configRefine (c : RawConfig) : Bool :=
  jsTruthy c.notionToken || jsTruthy c.openapiMcpHeaders

/-- Which credential mode `createServer` of the proxy variant activates
(its if / else-if over the config before initializing the proxy). -/
inductive AuthChoice where
  | tokenAuth (t : String)
  | headerAuth (h : String)
  | noAuth
deriving DecidableEq

/-- The credential selection performed by `createServer`
(`src/unnamed/part_000`): a truthy `notionToken` wins; otherwise a truthy
`openapiMcpHeaders`; otherwise no credential is installed. -/
def authChoice (c : RawConfig) : AuthChoice :=
  if jsTruthy c.notionToken then .tokenAuth (c.notionToken.getD "")
  else if jsTruthy c.openapiMcpHeaders then .headerAuth (c.openapiMcpHeaders.getD "")
  else .noAuth

/-- One operation of a validated OpenAPI document (what the tool
synthesizer consumes). -/
structure SpecOperation where
  opId : String
  method : String
  path : String
deriving DecidableEq

/-- A validated specification document: its list of operations. -/
structure SpecDocument where
  operations : List SpecOperation
deriving DecidableEq

/-- Outcome of loading and validating a raw specification document. -/
inductive SpecValidation where
  | valid (spec : SpecDocument)
  | malformed (message : String)
  | invalid (violations : List String)
deriving DecidableEq

/-- Startup errors thrown out of `initProxy`: unparseable input, or a
`ValidationError` carrying the itemized OpenAPI 3.1 violations. -/
inductive InitError where
  | specMalformed (message : String)
  | validationError (violations : List String)
deriving DecidableEq

/-- A tool exposed by the proxy. -/
structure ProxyTool where
  name : String
  description : String
deriving DecidableEq

/-- The MCP server held by the proxy: the tools it serves. -/
structure ProxyServer where
  tools : List ProxyTool
deriving DecidableEq

/-- The proxy object returned by `initProxy`. -/
structure MCPProxy where
  server : ProxyServer
deriving DecidableEq

/-- `proxy.getServer()`. -/
def MCPProxy.getServer (p : MCPProxy) : ProxyServer := p.server

/-- Modelled from the spec: the Tool Synthesizer of `init-server.js`
(not under src/) walks the validated operations and produces one tool
per operation (spec section 4.2). -/
def synthesizeTools (spec : SpecDocument) : List ProxyTool :=
  spec.operations.map fun op => { name := op.opId, description := op.method ++ " " ++ op.path }

/-- Modelled from the spec: `initProxy` of `init-server.js` (not under
src/). Spec section 4.1: the loader parses and validates the document
against OpenAPI 3.1 and fails closed — a malformed document throws a
malformed-input error, a schema-invalid document throws a
`ValidationError` carrying the itemized violations, and only a valid
document reaches the synthesizer. `validate` stands for the
loader/validator applied to the raw document text. -/
def initProxy (validate : String → SpecValidation) (doc : String) :
    Except InitError MCPProxy :=
  match validate doc with
  | .valid spec => .ok { server := { tools := synthesizeTools spec } }
  | .malformed m => .error (.specMalformed m)
  | .invalid vs => .error (.validationError vs)

/-- `createServer` of the proxy variant (`src/unnamed/part_000`): selects
credentials, calls `initProxy`, and returns `proxy.getServer()`; its
catch block logs the violations of a `ValidationError` (or the generic
error) and rethrows, so every initialization failure propagates and no
server is returned. -/
def createServer (validate : String → SpecValidation) (_c : RawConfig) (doc : String) :
    Except InitError ProxyServer :=
  match initProxy validate doc with
  | .ok proxy => .ok proxy.getServer
  | .error e => .error e

end NotionProxy

open NotionDirect

/-- The four names with a dispatch branch, as an explicit disjunction. -/
theorem hasDispatchBranch_iff (n : String) :
    hasDispatchBranch n = true
      ↔ (n = "search_notion" ∨ n = "get_page_content" ∨ n = "create_page" ∨ n = "update_page") := by
  simp [hasDispatchBranch]
  tauto

/-- A name outside the switch cases falls to the default branch: the
unknown-tool throw, caught into an error result, with no request
issued. -/
theorem callToolHandler_unknown (cfg : MainConfig) (o : Oracle) (fuel : Nat) (args : Args)
    {n : String} (h : hasDispatchBranch n = false) :
    callToolHandler cfg o fuel n args
      = (errorResult { responseDataMessage := none, message := "Unknown tool: " ++ n }, []) := by
  simp only [hasDispatchBranch, Bool.or_eq_false_iff, beq_eq_false_iff_ne, ne_eq] at h
  obtain ⟨⟨⟨h1, h2⟩, h3⟩, h4⟩ := h
  unfold callToolHandler
  split
  · exact absurd rfl h1
  · exact absurd rfl h2
  · exact absurd rfl h3
  · exact absurd rfl h4
  · rfl

/-- Every request issued inside `extractTextFromBlocks` goes through the
axios client and so carries its headers. -/
theorem extractTextFromBlocks_headers (cfg : MainConfig) (o : Oracle) :
    ∀ (fuel : Nat) (bs : List Block) (req : HttpRequest),
      req ∈ (extractTextFromBlocks cfg o fuel bs).snd → req.headers = notionHeaders cfg := by
  intro fuel bs
  induction fuel, bs using extractTextFromBlocks.induct cfg o with
  | case1 fuel => intro req h; simp [extractTextFromBlocks] at h
  | case2 fuel b rest ih2 ih1 =>
    intro req h
    rw [extractTextFromBlocks] at h
    simp only [List.mem_append] at h
    rcases h with h | h
    · split at h
      · split at h
        · simp at h; subst h; rfl
        · split at h
          · simp at h; subst h; rfl
          · split at h
            · simp at h; subst h; rfl
            · simp only [List.mem_cons] at h
              rcases h with h | h
              · subst h; rfl
              · exact ih2 _ req h
      · simp at h
    · exact ih1 req h

/-- C1 counterexample: a configuration supplying BOTH `notionToken` and
`openapiMcpHeaders` passes the credential validation of the proxy
variant's `configSchema` (its `.refine` is a disjunction, not an
exclusive one), contradicting the claim that supplying both is a
configuration error. -/
theorem c1_counterexample :
    NotionProxy.configRefine
      { notionToken := some "t", openapiMcpHeaders := some "h",
        baseUrl := some "https://api.notion.com" } = true := by
  decide

/-- C1 (amended): credential validation accepts a configuration exactly
when AT LEAST ONE of `notionToken` or `openapiMcpHeaders` is supplied
(truthy); supplying neither is the only configuration error, and it is
reported at parse time, before any dispatch. When both are supplied the
configuration is accepted and `createServer` activates the token,
ignoring the header set. -/
theorem c1_credential_validation (c : NotionProxy.RawConfig) :
    (NotionProxy.configRefine c = false
      ↔ (jsTruthy c.notionToken = false ∧ jsTruthy c.openapiMcpHeaders = false))
    ∧ (NotionProxy.configRefine c = true ↔ NotionProxy.authChoice c ≠ .noAuth)
    ∧ (jsTruthy c.notionToken = true →
        NotionProxy.authChoice c = .tokenAuth (c.notionToken.getD "")) := by
  unfold NotionProxy.configRefine NotionProxy.authChoice
  rcases h1 : jsTruthy c.notionToken <;> rcases h2 : jsTruthy c.openapiMcpHeaders <;> simp

/-- C1 witness: a configuration supplying both credentials is accepted
and the token wins. -/
theorem c1_witness :
    NotionProxy.authChoice
      { notionToken := some "ntn_a", openapiMcpHeaders := some "hdr", baseUrl := none }
      = NotionProxy.AuthChoice.tokenAuth "ntn_a" :=
  (c1_credential_validation
    { notionToken := some "ntn_a", openapiMcpHeaders := some "hdr", baseUrl := none }).2.2
    (by decide)

/-- C2 counterexample: calling the registered tool `search_notion` with
an argument object missing the required `query` still issues one HTTP
request (the search POST, with the missing value as `undefined`) and
returns a non-error result, contradicting the claim that the handler
returns `isError: true` and issues no request. -/
theorem c2_counterexample :
    (callToolHandler { notionToken := "ntn_x", baseUrl := "https://api.notion.com" }
        (fun _ => .success (.searchData [])) 0 "search_notion" {}).snd.length = 1
    ∧ (callToolHandler { notionToken := "ntn_x", baseUrl := "https://api.notion.com" }
        (fun _ => .success (.searchData [])) 0 "search_notion" {}).fst.isError = false :=
  ⟨rfl, rfl⟩

/-- C2 (amended): the CallTool handler performs no required-argument
validation at all: for every registered tool, a call whose argument
object is missing every required parameter still issues at least one
HTTP request (with missing values interpolated as `undefined`), and no
error naming the missing field is produced before dispatch. -/
theorem c2_no_argument_validation (cfg : MainConfig) (o : Oracle) (fuel : Nat) (n : String)
    (h : hasDispatchBranch n = true) :
    1 ≤ (callToolHandler cfg o fuel n {}).snd.length := by
  rcases (hasDispatchBranch_iff n).mp h with h | h | h | h <;> subst h
  · exact Nat.le_refl 1
  · unfold callToolHandler
    rcases hA : awaitReq o (pageReq cfg {}) with e | d1
    · simp [hA]
    · rcases hB : awaitReq o (pageBlocksReq cfg {}) with e2 | d2
      · simp [hA, hB]
      · rcases hC : asBlocks d2 with _ | blocks
        · simp [hA, hB, hC]
        · simp [hA, hB, hC]
  · exact Nat.le_refl 1
  · exact Nat.le_refl 1

/-- C2 witness: `create_page` with no arguments still issues its POST. -/
theorem c2_witness :
    1 ≤ (callToolHandler { notionToken := "ntn_w", baseUrl := "u" }
        (fun _ => .success .emptyData) 0 "create_page" {}).snd.length :=
  c2_no_argument_validation { notionToken := "ntn_w", baseUrl := "u" }
    (fun _ => .success .emptyData) 0 "create_page" (by decide)

/-- C3 counterexample: an upstream 404 with data message "boom" and a
transport-level failure with message "boom" produce byte-identical
outcomes (same error-flagged result, same single request): the upstream
status is not carried and the transport failure is returned as
tool-level content, not surfaced as a harder failure — contradicting the
claimed distinguishability. -/
theorem c3_counterexample :
    callToolHandler { notionToken := "ntn_x", baseUrl := "u" }
        (fun _ => .httpError 404 (some "boom")) 1 "search_notion" {}
      = callToolHandler { notionToken := "ntn_x", baseUrl := "u" }
        (fun _ => .transportError "boom") 1 "search_notion" {}
    ∧ (callToolHandler { notionToken := "ntn_x", baseUrl := "u" }
        (fun _ => .transportError "boom") 1 "search_notion" {}).fst.isError = true :=
  ⟨rfl, rfl⟩

/-- C3 (amended): every dispatch error — upstream 4xx/5xx response and
transport-level failure alike — is caught by the single catch block and
returned as a result with the error flag set whose text carries the
upstream data message when present (else the thrown message), but never
the status code; the two failure kinds produce results of the same form
and are not distinguishable in kind. -/
theorem c3_error_mapping (cfg : MainConfig) (fuel : Nat) (args : Args) (n : String)
    (st : Nat) (m : String) (hm : m ≠ "") (h : hasDispatchBranch n = true) :
    (callToolHandler cfg (fun _ => .httpError st (some m)) fuel n args).fst
      = { content := [{ type := "text", text := "❌ Error: " ++ m }], isError := true }
    ∧ (callToolHandler cfg (fun _ => .transportError m) fuel n args).fst
      = { content := [{ type := "text", text := "❌ Error: " ++ m }], isError := true } := by
  rcases (hasDispatchBranch_iff n).mp h with h | h | h | h <;> subst h <;>
    constructor <;> simp [callToolHandler, awaitReq, errorResult, jsOr, hm]

/-- C3 witness: a 500 on `update_page` and a transport failure on
`update_page` both come back as the same error-flagged text result. -/
theorem c3_witness :
    (callToolHandler { notionToken := "ntn_x", baseUrl := "u" }
        (fun _ => .httpError 500 (some "down")) 0 "update_page" {}).fst
      = { content := [{ type := "text", text := "❌ Error: down" }], isError := true }
    ∧ (callToolHandler { notionToken := "ntn_x", baseUrl := "u" }
        (fun _ => .transportError "down") 0 "update_page" {}).fst
      = { content := [{ type := "text", text := "❌ Error: down" }], isError := true } :=
  c3_error_mapping { notionToken := "ntn_x", baseUrl := "u" } 0 {} "update_page" 500 "down"
    (by decide) (by decide)

/-- C4: for every tool name absent from the switch cases and every
argument object, the CallTool handler returns a result with the error
flag set whose text names the unknown tool, issues no HTTP request, and
(being a total function into results) lets no exception escape the
dispatcher. -/
theorem c4_unknown_tool (cfg : MainConfig) (o : Oracle) (fuel : Nat) (args : Args)
    (n : String) (h : hasDispatchBranch n = false) :
    (callToolHandler cfg o fuel n args).fst.isError = true
    ∧ (callToolHandler cfg o fuel n args).fst.content
        = [{ type := "text", text := "❌ Error: " ++ ("Unknown tool: " ++ n) }]
    ∧ (callToolHandler cfg o fuel n args).snd = [] := by
  rw [callToolHandler_unknown cfg o fuel args h]
  exact ⟨rfl, rfl, rfl⟩

/-- C4 witness: `list_databases` (a tool of a different variant, absent
from this registry) yields an error result naming it, with no request. -/
theorem c4_witness :
    (callToolHandler { notionToken := "ntn_x", baseUrl := "u" }
        (fun _ => .success .emptyData) 3 "list_databases" {}).fst.isError = true
    ∧ (callToolHandler { notionToken := "ntn_x", baseUrl := "u" }
        (fun _ => .success .emptyData) 3 "list_databases" {}).fst.content
        = [{ type := "text", text := "❌ Error: " ++ ("Unknown tool: " ++ "list_databases") }]
    ∧ (callToolHandler { notionToken := "ntn_x", baseUrl := "u" }
        (fun _ => .success .emptyData) 3 "list_databases" {}).snd = [] :=
  c4_unknown_tool { notionToken := "ntn_x", baseUrl := "u" }
    (fun _ => .success .emptyData) 3 {} "list_databases" (by decide)

/-- C5: every HTTP request issued by any dispatched tool call carries
exactly the axios client headers: the bearer authorization built from
the configured token, the fixed Notion-Version API-version header and
the fixed Content-Type — independent of the tool and of every
caller-supplied argument, so fixed headers are never overridden. -/
theorem c5_fixed_headers (cfg : MainConfig) (o : Oracle) (fuel : Nat) (n : String)
    (args : Args) (req : HttpRequest)
    (h : req ∈ (callToolHandler cfg o fuel n args).snd) :
    req.headers = [("Authorization", "Bearer " ++ cfg.notionToken),
                   ("Notion-Version", "2022-06-28"),
                   ("Content-Type", "application/json")] := by
  suffices hh : req.headers = notionHeaders cfg from hh
  by_cases hb : hasDispatchBranch n = true
  · rcases (hasDispatchBranch_iff n).mp hb with hn | hn | hn | hn <;> subst hn
    · unfold callToolHandler at h
      simp at h
      subst h; rfl
    · unfold callToolHandler at h
      rcases hA : awaitReq o (pageReq cfg args) with e | d1
      · simp [hA] at h; subst h; rfl
      · rcases hB : awaitReq o (pageBlocksReq cfg args) with e2 | d2
        · simp [hA, hB] at h
          rcases h with h | h <;> subst h <;> rfl
        · rcases hC : asBlocks d2 with _ | blocks
          · simp [hA, hB, hC] at h
            rcases h with h | h <;> subst h <;> rfl
          · simp [hA, hB, hC] at h
            rcases h with h | h | h
            · subst h; rfl
            · subst h; rfl
            · exact extractTextFromBlocks_headers cfg o fuel blocks req h
    · unfold callToolHandler at h
      simp at h
      subst h; rfl
    · unfold callToolHandler at h
      simp at h
      subst h; rfl
  · rw [callToolHandler_unknown cfg o fuel args (by simpa using hb)] at h
    simp at h

/-- C5 witness: the PATCH issued by `update_page` carries the bearer
token and the two fixed protocol headers. -/
theorem c5_witness :
    (updateReq { notionToken := "ntn_h", baseUrl := "u" } {}).headers
      = [("Authorization", "Bearer ntn_h"),
         ("Notion-Version", "2022-06-28"),
         ("Content-Type", "application/json")] :=
  c5_fixed_headers { notionToken := "ntn_h", baseUrl := "u" }
    (fun _ => .success .emptyData) 0 "update_page" {}
    (updateReq { notionToken := "ntn_h", baseUrl := "u" } {})
    (List.mem_singleton.mpr rfl)

/-- C6: the registry is one-to-one: a name is listed by the ListTools
handler exactly when it has a dispatch branch in the CallTool switch,
and every name without a branch falls to the default unknown-tool
result — so no listed name lacks a binding and no binding lacks a
listed descriptor. -/
theorem c6_registry_one_to_one :
    (∀ n : String, n ∈ listTools.map ToolDescriptor.name ↔ hasDispatchBranch n = true)
    ∧ (∀ (n : String) (cfg : MainConfig) (o : Oracle) (fuel : Nat) (args : Args),
        hasDispatchBranch n = false →
          callToolHandler cfg o fuel n args
            = (errorResult { responseDataMessage := none, message := "Unknown tool: " ++ n }, [])) := by
  constructor
  · intro n
    rw [hasDispatchBranch_iff]
    simp [listTools]
  · intro n cfg o fuel args h
    exact callToolHandler_unknown cfg o fuel args h

/-- C6 witness: `search_notion` is listed (and has a branch), while
`query_database` (a name from a different variant) has no branch and
gets the default unknown-tool behaviour. -/
theorem c6_witness :
    "search_notion" ∈ listTools.map ToolDescriptor.name
    ∧ callToolHandler { notionToken := "ntn_x", baseUrl := "u" }
        (fun _ => .success .emptyData) 0 "query_database" {}
      = (errorResult { responseDataMessage := none, message := "Unknown tool: " ++ "query_database" }, []) :=
  ⟨(c6_registry_one_to_one.1 "search_notion").mpr (by decide),
   c6_registry_one_to_one.2 "query_database" { notionToken := "ntn_x", baseUrl := "u" }
     (fun _ => .success .emptyData) 0 {} (by decide)⟩

/-- C7: spec loading fails closed. For every document the OpenAPI 3.1
validator rejects, the proxy variant's `createServer` propagates the
`ValidationError` carrying the itemized violations and returns no
server; and any server it does return serves exactly the tools
synthesized from a fully validated document, never a partial set.
The loader/validator itself (`init-server.js`) is modelled from the
spec. -/
theorem c7_fails_closed (validate : String → NotionProxy.SpecValidation)
    (c : NotionProxy.RawConfig) (doc : String) :
    (∀ vs : List String, validate doc = .invalid vs →
      NotionProxy.createServer validate c doc = .error (.validationError vs))
    ∧ (∀ s : NotionProxy.ProxyServer, NotionProxy.createServer validate c doc = .ok s →
      ∃ spec : NotionProxy.SpecDocument,
        validate doc = .valid spec ∧ s.tools = NotionProxy.synthesizeTools spec) := by
  unfold NotionProxy.createServer NotionProxy.initProxy
  rcases hv : validate doc with spec | m | vs <;> simp [hv, NotionProxy.MCPProxy.getServer]

/-- C7 witness: a validator rejecting the document with one violation
makes `createServer` fail with exactly that violation list. -/
theorem c7_witness :
    NotionProxy.createServer (fun _ => .invalid ["paths: missing required field"])
      { notionToken := some "ntn_x", openapiMcpHeaders := none, baseUrl := none } "doc"
      = .error (.validationError ["paths: missing required field"]) :=
  (c7_fails_closed (fun _ => .invalid ["paths: missing required field"])
    { notionToken := some "ntn_x", openapiMcpHeaders := none, baseUrl := none } "doc").1
    ["paths: missing required field"] rfl

/-- C8: no automatic retries. Every POST/PATCH-type tool call
(`search_notion`, `create_page`, `update_page`) issues at most one HTTP
request under every environment, transport failure included; and a
`get_page_content` call whose first GET fails at the transport level
issues exactly that one request — zero retries, a bound that holds for
every K. -/
theorem c8_no_retries :
    (∀ (cfg : MainConfig) (o : Oracle) (fuel : Nat) (args : Args) (n : String),
        (n = "search_notion" ∨ n = "create_page" ∨ n = "update_page") →
        (callToolHandler cfg o fuel n args).snd.length ≤ 1)
    ∧ (∀ (cfg : MainConfig) (o : Oracle) (fuel : Nat) (args : Args) (m : String),
        o (pageReq cfg args) = .transportError m →
        (callToolHandler cfg o fuel "get_page_content" args).snd = [pageReq cfg args]) := by
  constructor
  · intro cfg o fuel args n h
    rcases h with h | h | h <;> subst h <;> exact Nat.le_refl 1
  · intro cfg o fuel args m h
    unfold callToolHandler
    simp [awaitReq, h]

/-- C8 witness: a concrete `create_page` call issues at most one
request, and a concrete `get_page_content` call whose page GET times out
issues exactly one request. -/
theorem c8_witness :
    (callToolHandler { notionToken := "ntn_x", baseUrl := "u" }
        (fun _ => .transportError "timeout") 0 "create_page" {}).snd.length ≤ 1
    ∧ (callToolHandler { notionToken := "ntn_x", baseUrl := "u" }
        (fun _ => .transportError "timeout") 0 "get_page_content" {}).snd
      = [pageReq { notionToken := "ntn_x", baseUrl := "u" } {}] :=
  ⟨c8_no_retries.1 { notionToken := "ntn_x", baseUrl := "u" }
      (fun _ => .transportError "timeout") 0 {} "create_page" (Or.inr (Or.inl rfl)),
   c8_no_retries.2 { notionToken := "ntn_x", baseUrl := "u" }
      (fun _ => .transportError "timeout") 0 {} "timeout" rfl⟩

/-- C9: `createServer` of `src/index.ts` validates the token format
before any request handler is registered: a token starting with neither
"secret_" nor "ntn_" makes it throw (so no server and no handler
exists), and a token with either prefix passes the check and yields the
fully registered server. -/
theorem c9_token_format_check (cfg : MainConfig) :
    ((cfg.notionToken.startsWith "secret_" = false
        ∧ cfg.notionToken.startsWith "ntn_" = false) →
      createServer cfg = .error (invalidTokenMessage cfg.notionToken))
    ∧ ((cfg.notionToken.startsWith "secret_" = true
        ∨ cfg.notionToken.startsWith "ntn_" = true) →
      ∃ s : MainServer, createServer cfg = .ok s ∧ s.listToolsHandler = listTools) := by
  unfold createServer
  rcases h1 : cfg.notionToken.startsWith "secret_" <;>
    rcases h2 : cfg.notionToken.startsWith "ntn_" <;> simp

/-- C9 witness: the token "abc" (the example token the spec itself
uses) is rejected at startup. -/
theorem c9_witness :
    createServer { notionToken := "abc", baseUrl := "https://api.notion.com" }
      = .error (invalidTokenMessage "abc") :=
  (c9_token_format_check { notionToken := "abc", baseUrl := "https://api.notion.com" }).1
    (by decide)

/-- C10: the `update_page` PATCH body contains at most a
`properties.title` field derived from the `title` argument: the
`content` argument never affects the call in any way (same result, same
requests), the body sent is exactly the one request's body, a missing
`title` sends the empty object, and the body is always either empty or
the title payload alone — even though the listed descriptor advertises
`content` as "New content to add to the page". -/
theorem c10_update_ignores_content (cfg : MainConfig) (o : Oracle) (fuel : Nat) (args : Args) :
    (∀ c : Option String,
      callToolHandler cfg o fuel "update_page" { args with content := c }
        = callToolHandler cfg o fuel "update_page" args)
    ∧ (callToolHandler cfg o fuel "update_page" args).snd
        = [mkReq cfg "PATCH" ("/v1/pages/" ++ interpUndef args.page_id)
            (some (updateData args))]
    ∧ (args.title = none → updateData args = .obj [])
    ∧ (updateData args = .obj []
        ∨ ∃ t : String, args.title = some t ∧ updateData args
            = .obj [("properties", .obj [("title",
                .arr [.obj [("text", .obj [("content", .str t)])]])])])
    ∧ (∃ d ∈ listTools, d.name = "update_page"
        ∧ ({ name := "content", type := "string",
             description := "New content to add to the page" } : ParamSpec)
            ∈ d.inputSchema.properties) := by
  refine ⟨fun c => rfl, rfl, ?_, ?_, ?_⟩
  · intro h
    simp [updateData, jsTruthy, h]
  · rcases ht : args.title with _ | t
    · left; simp [updateData, jsTruthy, ht]
    · rcases he : decide (t = "") with _ | _
      · right
        refine ⟨t, rfl, ?_⟩
        simp at he
        simp [updateData, jsTruthy, ht, optJson, he]
      · left
        simp at he
        simp [updateData, jsTruthy, ht, he]
  · exact ⟨{ name := "update_page",
             description := "Update the content of an existing Notion page",
             inputSchema :=
               { properties :=
                   [{ name := "page_id", type := "string",
                      description := "ID of the page to update" },
                    { name := "title", type := "string",
                      description := "New title for the page (optional)" },
                    { name := "content", type := "string",
                      description := "New content to add to the page" }],
                 required := ["page_id"] } },
           by decide, rfl, by decide⟩

/-- C10 witness: with title "T" present, adding a content argument
changes nothing, and with no title the body is the empty object. -/
theorem c10_witness :
    callToolHandler { notionToken := "ntn_x", baseUrl := "u" }
        (fun _ => .success .emptyData) 0 "update_page"
        { page_id := some "p1", title := some "T", content := some "C" }
      = callToolHandler { notionToken := "ntn_x", baseUrl := "u" }
        (fun _ => .success .emptyData) 0 "update_page"
        { page_id := some "p1", title := some "T" }
    ∧ updateData { page_id := some "p2" } = .obj [] :=
  ⟨(c10_update_ignores_content { notionToken := "ntn_x", baseUrl := "u" }
      (fun _ => .success .emptyData) 0 { page_id := some "p1", title := some "T" }).1
      (some "C"),
   (c10_update_ignores_content { notionToken := "ntn_x", baseUrl := "u" }
      (fun _ => .success .emptyData) 0 { page_id := some "p2" }).2.2.1 rfl⟩
